import Mathlib

set_option maxRecDepth 100000

/-!
Shallow embedding of the Native8080 Intel-8080 interpreter
(src/cpu8080.h, src/cpu8080.cpp, src/main.cpp).

Conventions of the embedding:
* `uint8_t` / `uint16_t` values are `Nat`s; a store into a narrower field or
  a conversion at a call boundary is an explicit `% 256` / `% 65536`.
* C++ arithmetic performed in `int` (after integer promotion) is exact
  `Nat` / `Int` arithmetic; where a C++ subtraction can go below zero before
  a modular store, an offset that is a multiple of the modulus keeps the
  `Nat` subtraction exact.
* The 64 KiB byte array is a function `Nat → Nat`; reads reduce the value
  `% 256` (the array holds bytes).  `read16` / `write16` index `mem[addr+1]`
  where `addr + 1` is an `int` that is not reduced modulo 2^16, so for
  `addr = 0xFFFF` the source indexes the 65536-byte `std::array` out of
  bounds (undefined behavior); that access is modeled as `none`.
* Host-side effects of the I/O callbacks are recorded as `IOEvent`s;
  a fallible step returns `Option`.
-/

-- ── Flags register bit positions (S Z 0 AC 0 P 1 CY) ──

def FLAG_CY : Nat := 0x01

def FLAG_P : Nat := 0x04

def FLAG_AC : Nat := 0x10

def FLAG_Z : Nat := 0x40

def FLAG_S : Nat := 0x80

def FLAG_FIXED : Nat := 0x02

-- ── Machine state ──

/-- Machine state of the 8080 core (struct `State8080` in src/cpu8080.h). -/
structure State8080 where
  A : Nat := 0
  B : Nat := 0
  C : Nat := 0
  D : Nat := 0
  E : Nat := 0
  H : Nat := 0
  L : Nat := 0
  F : Nat := FLAG_FIXED
  PC : Nat := 0
  SP : Nat := 0
  mem : Nat → Nat := fun _ => 0
  inte : Bool := false
  halted : Bool := false

-- ── Flag helpers ──

def State8080.flag_cy (s : State8080) : Bool := decide (s.F &&& FLAG_CY ≠ 0)

def State8080.flag_p (s : State8080) : Bool := decide (s.F &&& FLAG_P ≠ 0)

def State8080.flag_ac (s : State8080) : Bool := decide (s.F &&& FLAG_AC ≠ 0)

def State8080.flag_z (s : State8080) : Bool := decide (s.F &&& FLAG_Z ≠ 0)

def State8080.flag_s (s : State8080) : Bool := decide (s.F &&& FLAG_S ≠ 0)

/-- Shared body of the five flag setters: `v ? (F |= mask) : (F &= ~mask)`;
on a byte, `~mask` is `0xFF ^^^ mask`. -/
def setFlag (F mask : Nat) (v : Bool) : Nat :=
  if v then F ||| mask else F &&& (0xFF ^^^ mask)

def State8080.set_cy (s : State8080) (v : Bool) : State8080 :=
  { s with F := setFlag s.F FLAG_CY v }

def State8080.set_p (s : State8080) (v : Bool) : State8080 :=
  { s with F := setFlag s.F FLAG_P v }

def State8080.set_ac (s : State8080) (v : Bool) : State8080 :=
  { s with F := setFlag s.F FLAG_AC v }

def State8080.set_z (s : State8080) (v : Bool) : State8080 :=
  { s with F := setFlag s.F FLAG_Z v }

def State8080.set_s (s : State8080) (v : Bool) : State8080 :=
  { s with F := setFlag s.F FLAG_S v }

-- ── Register-pair helpers ──

def State8080.BC (s : State8080) : Nat := ((s.B <<< 8) ||| s.C) % 65536

def State8080.DE (s : State8080) : Nat := ((s.D <<< 8) ||| s.E) % 65536

def State8080.HL (s : State8080) : Nat := ((s.H <<< 8) ||| s.L) % 65536

def State8080.setBC (s : State8080) (v : Nat) : State8080 :=
  let v := v % 65536
  { s with B := v >>> 8, C := v &&& 0xFF }

def State8080.setDE (s : State8080) (v : Nat) : State8080 :=
  let v := v % 65536
  { s with D := v >>> 8, E := v &&& 0xFF }

def State8080.setHL (s : State8080) (v : Nat) : State8080 :=
  let v := v % 65536
  { s with H := v >>> 8, L := v &&& 0xFF }

/-- PSW = FLAGS:A packed as a 16-bit word (used by PUSH PSW / POP PSW). -/
def State8080.PSW (s : State8080) : Nat := ((s.A <<< 8) ||| s.F) % 65536

/-- Writing PSW: `A = v >> 8; F = (v & 0xFF) | FLAG_FIXED`. -/
def State8080.setPSW (s : State8080) (v : Nat) : State8080 :=
  let v := v % 65536
  { s with A := v >>> 8, F := (v &&& 0xFF) ||| FLAG_FIXED }

-- ── Memory helpers ──

/-- Pointwise update of the memory function (one byte store). -/
def updMem (m : Nat → Nat) (a v : Nat) : Nat → Nat :=
  fun i => if i = a then v else m i

def State8080.read8 (s : State8080) (addr : Nat) : Nat :=
  s.mem (addr % 65536) % 256

def State8080.write8 (s : State8080) (addr v : Nat) : State8080 :=
  { s with mem := updMem s.mem (addr % 65536) (v % 256) }

/-- 16-bit read `mem[addr] | (mem[addr+1] << 8)`.  The index `addr + 1` is
computed in `int` without a modulo-2^16 reduction, so `addr = 0xFFFF`
indexes the array out of bounds: modeled as `none`. -/
def State8080.read16 (s : State8080) (addr : Nat) : Option Nat :=
  let a := addr % 65536
  if a + 1 ≤ 0xFFFF then
    some (((s.mem a % 256) ||| ((s.mem (a + 1) % 256) <<< 8)) % 65536)
  else none

/-- 16-bit write `mem[addr] = v & 0xFF; mem[addr+1] = v >> 8`, with the same
out-of-bounds behavior at `addr = 0xFFFF` as `read16`. -/
def State8080.write16 (s : State8080) (addr v : Nat) : Option State8080 :=
  let a := addr % 65536
  let v := v % 65536
  if a + 1 ≤ 0xFFFF then
    some { s with mem := updMem (updMem s.mem a (v &&& 0xFF)) (a + 1) (v >>> 8) }
  else none

/-- Fetch one byte at PC and advance PC (`mem[PC++]`). -/
def State8080.next8 (s : State8080) : State8080 × Nat :=
  ({ s with PC := (s.PC + 1) % 65536 }, s.mem (s.PC % 65536) % 256)

/-- Fetch a little-endian 16-bit immediate. -/
def State8080.next16 (s : State8080) : State8080 × Nat :=
  let (s, lo) := s.next8
  let (s, hi) := s.next8
  (s, lo ||| (hi <<< 8))

/-- Stack push: `SP -= 2; write16(SP, v)`; `SP - 2` wraps as `uint16_t`. -/
def State8080.push16 (s : State8080) (v : Nat) : Option State8080 :=
  let s := { s with SP := (s.SP + 65534) % 65536 }
  s.write16 s.SP v

/-- Stack pop: `v = read16(SP); SP += 2`. -/
def State8080.pop16 (s : State8080) : Option (State8080 × Nat) :=
  (s.read16 s.SP).map fun v => ({ s with SP := (s.SP + 2) % 65536 }, v)

-- ── Internal helpers of src/cpu8080.cpp ──

/-- Even parity: true when the number of set bits of the byte is even. -/
def parity (v : Nat) : Bool :=
  let v := v % 256
  let v := v ^^^ (v >>> 4)
  let v := v ^^^ (v >>> 2)
  let v := v ^^^ (v >>> 1)
  decide (v &&& 1 = 0)

/-- Update S, Z, P flags from an 8-bit result. -/
def update_szp (s : State8080) (result : Nat) : State8080 :=
  ((s.set_s (decide (result &&& 0x80 ≠ 0))).set_z
      (decide (result = 0))).set_p (parity result)

/-- Full arithmetic flag update (S Z AC P CY) after an ADD/ADC-class
operation; `full` is the 16-bit result, `lhs`/`rhs` the original operands. -/
def update_flags_add (s : State8080) (full lhs rhs carry_in : Nat) : State8080 :=
  let result := full % 256
  let s := update_szp s result
  let s := s.set_cy (decide (full > 0xFF))
  s.set_ac (decide ((lhs &&& 0x0F) + (rhs &&& 0x0F) + carry_in > 0x0F))

/-- Full arithmetic flag update for SUB/SBB-class operations.
`uint16_t full = uint16_t(lhs) - uint16_t(rhs) - uint16_t(borrow_in)` is an
`int` subtraction stored modulo 2^16 (the offset 65536 keeps the `Nat`
subtraction exact for byte operands).  The AC test
`((lhs & 0x0F) - (rhs & 0x0F) - borrow_in) < 0` compares `int` values
(the `uint8_t` operands are promoted to signed `int`), modeled over `Int`. -/
def update_flags_sub (s : State8080) (lhs rhs borrow_in : Nat) : State8080 :=
  let full := (lhs + 65536 - rhs - borrow_in) % 65536
  let result := full % 256
  let s := update_szp s result
  let s := s.set_cy (decide (full > 0xFF))
  s.set_ac
    (decide (((lhs &&& 0x0F : Nat) : Int) - ((rhs &&& 0x0F : Nat) : Int)
      - (borrow_in : Int) < 0))

-- ── Register accessor by 3-bit SSS/DDD field (110 = memory at HL) ──

def reg_read (s : State8080) (field : Nat) : Nat :=
  match field &&& 0x07 with
  | 0 => s.B
  | 1 => s.C
  | 2 => s.D
  | 3 => s.E
  | 4 => s.H
  | 5 => s.L
  | 6 => s.mem s.HL % 256
  | 7 => s.A
  | _ => 0

def reg_write (s : State8080) (field val : Nat) : State8080 :=
  match field &&& 0x07 with
  | 0 => { s with B := val }
  | 1 => { s with C := val }
  | 2 => { s with D := val }
  | 3 => { s with E := val }
  | 4 => { s with H := val }
  | 5 => { s with L := val }
  | 6 => { s with mem := updMem s.mem s.HL (val % 256) }
  | 7 => { s with A := val }
  | _ => s

-- ── Register-pair accessors by 2-bit RP field ──

def rp_read (s : State8080) (rp : Nat) : Nat :=
  match rp &&& 0x03 with
  | 0 => s.BC
  | 1 => s.DE
  | 2 => s.HL
  | 3 => s.SP
  | _ => 0

def rp_write (s : State8080) (rp val : Nat) : State8080 :=
  match rp &&& 0x03 with
  | 0 => s.setBC val
  | 1 => s.setDE val
  | 2 => s.setHL val
  | 3 => { s with SP := val % 65536 }
  | _ => s

/-- PUSH/POP use RP=11 for PSW (FLAGS:A), not SP. -/
def rp_read_psw (s : State8080) (rp : Nat) : Nat :=
  if rp &&& 0x03 = 3 then s.PSW else rp_read s rp

def rp_write_psw (s : State8080) (rp val : Nat) : State8080 :=
  if rp &&& 0x03 = 3 then s.setPSW val else rp_write s rp val

-- ── Condition evaluation by 3-bit CCC field ──

def condition (s : State8080) (ccc : Nat) : Bool :=
  match ccc &&& 0x07 with
  | 0 => !s.flag_z
  | 1 => s.flag_z
  | 2 => !s.flag_cy
  | 3 => s.flag_cy
  | 4 => !s.flag_p
  | 5 => s.flag_p
  | 6 => !s.flag_s
  | 7 => s.flag_s
  | _ => false

-- ── I/O callbacks ──

/-- One observable invocation of an I/O callback (port and byte). -/
inductive IOEvent where
  | input : Nat → Nat → IOEvent
  | output : Nat → Nat → IOEvent

/-- The I/O bus: an optional input handler (port to byte) and the presence
of an output handler; handler host effects are recorded as `IOEvent`s. -/
structure IOBus where
  in_handler : Option (Nat → Nat)
  out_handler : Bool

-- ── Step8080 ──

/-- Execute one instruction; returns the new state, the clock-cycle count,
and the I/O-handler invocations.  `none` models the out-of-bounds
`std::array` access of `read16`/`write16` at address 0xFFFF. -/
def Step8080 (s : State8080) (io : IOBus) : Option (State8080 × Nat × List IOEvent) :=
  if s.halted then some (s, 4, []) else
  let (s, opcode) := s.next8
  let ddd := (opcode >>> 3) &&& 0x07
  let sss := opcode &&& 0x07
  let rp := (opcode >>> 4) &&& 0x03
  match opcode with
  | 0x00 | 0x08 | 0x10 | 0x18 | 0x20 | 0x28 | 0x30 | 0x38 =>
      some (s, 4, [])
  | 0x76 =>
      some ({ s with halted := true }, 7, [])
  | 0x06 | 0x0E | 0x16 | 0x1E | 0x26 | 0x2E | 0x36 | 0x3E =>
      let (s, imm) := s.next8
      some (reg_write s ddd imm, if ddd = 6 then 10 else 7, [])
  | 0x01 | 0x11 | 0x21 | 0x31 =>
      let (s, imm) := s.next16
      some (rp_write s rp imm, 10, [])
  | 0x3A =>
      let (s, addr) := s.next16
      some ({ s with A := s.read8 addr }, 13, [])
  | 0x32 =>
      let (s, addr) := s.next16
      some (s.write8 addr s.A, 13, [])
  | 0x2A =>
      let (s, addr) := s.next16
      some ({ s with L := s.read8 addr, H := s.read8 (addr + 1) }, 16, [])
  | 0x22 =>
      let (s, addr) := s.next16
      some ((s.write8 addr s.L).write8 (addr + 1) s.H, 16, [])
  | 0x0A => some ({ s with A := s.read8 s.BC }, 7, [])
  | 0x1A => some ({ s with A := s.read8 s.DE }, 7, [])
  | 0x02 => some (s.write8 s.BC s.A, 7, [])
  | 0x12 => some (s.write8 s.DE s.A, 7, [])
  | 0xEB =>
      let tmp := s.HL
      let s := s.setHL s.DE
      some (s.setDE tmp, 4, [])
  | 0x80 | 0x81 | 0x82 | 0x83 | 0x84 | 0x85 | 0x86 | 0x87 =>
      let rval := reg_read s sss
      let res := (s.A + rval) % 65536
      let s := update_flags_add s res s.A rval 0
      some ({ s with A := res % 256 }, if sss = 6 then 7 else 4, [])
  | 0xC6 =>
      let (s, imm) := s.next8
      let res := (s.A + imm) % 65536
      let s := update_flags_add s res s.A imm 0
      some ({ s with A := res % 256 }, 7, [])
  | 0x88 | 0x89 | 0x8A | 0x8B | 0x8C | 0x8D | 0x8E | 0x8F =>
      let rval := reg_read s sss
      let cy := if s.flag_cy then 1 else 0
      let res := (s.A + rval + cy) % 65536
      let s := update_flags_add s res s.A rval cy
      some ({ s with A := res % 256 }, if sss = 6 then 7 else 4, [])
  | 0xCE =>
      let (s, imm) := s.next8
      let cy := if s.flag_cy then 1 else 0
      let res := (s.A + imm + cy) % 65536
      let s := update_flags_add s res s.A imm cy
      some ({ s with A := res % 256 }, 7, [])
  | 0x90 | 0x91 | 0x92 | 0x93 | 0x94 | 0x95 | 0x96 | 0x97 =>
      let rval := reg_read s sss
      let prev := s.A
      let s := update_flags_sub s s.A rval 0
      some ({ s with A := (prev + 256 - rval % 256) % 256 },
        if sss = 6 then 7 else 4, [])
  | 0xD6 =>
      let (s, imm) := s.next8
      let prev := s.A
      let s := update_flags_sub s s.A imm 0
      some ({ s with A := (prev + 256 - imm % 256) % 256 }, 7, [])
  | 0x98 | 0x99 | 0x9A | 0x9B | 0x9C | 0x9D | 0x9E | 0x9F =>
      let rval := reg_read s sss
      let cy := if s.flag_cy then 1 else 0
      let prev := s.A
      let s := update_flags_sub s s.A rval cy
      some ({ s with A := (prev + 512 - rval % 256 - cy) % 256 },
        if sss = 6 then 7 else 4, [])
  | 0xDE =>
      let (s, imm) := s.next8
      let cy := if s.flag_cy then 1 else 0
      let prev := s.A
      let s := update_flags_sub s s.A imm cy
      some ({ s with A := (prev + 512 - imm % 256 - cy) % 256 }, 7, [])
  | 0x04 | 0x0C | 0x14 | 0x1C | 0x24 | 0x2C | 0x34 | 0x3C =>
      let v := reg_read s ddd
      let res := (v + 1) % 256
      let s := s.set_ac (decide (v &&& 0x0F = 0x0F))
      let s := update_szp s res
      some (reg_write s ddd res, if ddd = 6 then 10 else 5, [])
  | 0x05 | 0x0D | 0x15 | 0x1D | 0x25 | 0x2D | 0x35 | 0x3D =>
      let v := reg_read s ddd
      let res := (v + 255) % 256
      let s := s.set_ac (decide (v &&& 0x0F = 0x00))
      let s := update_szp s res
      some (reg_write s ddd res, if ddd = 6 then 10 else 5, [])
  | 0x03 | 0x13 | 0x23 | 0x33 =>
      some (rp_write s rp (rp_read s rp + 1), 5, [])
  | 0x0B | 0x1B | 0x2B | 0x3B =>
      some (rp_write s rp (rp_read s rp + 65535), 5, [])
  | 0x09 | 0x19 | 0x29 | 0x39 =>
      let res := s.HL + rp_read s rp
      let s := s.set_cy (decide (res > 0xFFFF))
      some (s.setHL res, 10, [])
  | 0x27 =>
      let lo := s.A &&& 0x0F
      let corr0 := if s.flag_ac || decide (lo > 9) then 0x06 else 0x00
      let corr := if s.flag_cy || decide (s.A > 0x99) then corr0 ||| 0x60 else corr0
      let new_cy := s.flag_cy || decide (s.A > 0x99)
      let s := s.set_ac (decide ((s.A &&& 0x0F) + (corr &&& 0x0F) > 0x0F))
      let a := (s.A + corr) % 256
      let s := { s with A := a }
      let s := update_szp s a
      some (s.set_cy new_cy, 4, [])
  | 0xA0 | 0xA1 | 0xA2 | 0xA3 | 0xA4 | 0xA5 | 0xA6 | 0xA7 =>
      let rval := reg_read s sss
      let s := s.set_ac (decide ((s.A ||| rval) &&& 0x08 ≠ 0))
      let a := (s.A &&& rval) % 256
      let s := { s with A := a }
      let s := update_szp s a
      some (s.set_cy false, if sss = 6 then 7 else 4, [])
  | 0xE6 =>
      let (s, imm) := s.next8
      let s := s.set_ac (decide ((s.A ||| imm) &&& 0x08 ≠ 0))
      let a := (s.A &&& imm) % 256
      let s := { s with A := a }
      let s := update_szp s a
      some (s.set_cy false, 7, [])
  | 0xB0 | 0xB1 | 0xB2 | 0xB3 | 0xB4 | 0xB5 | 0xB6 | 0xB7 =>
      let a := (s.A ||| reg_read s sss) % 256
      let s := { s with A := a }
      let s := update_szp s a
      some ((s.set_cy false).set_ac false, if sss = 6 then 7 else 4, [])
  | 0xF6 =>
      let (s, imm) := s.next8
      let a := (s.A ||| imm) % 256
      let s := { s with A := a }
      let s := update_szp s a
      some ((s.set_cy false).set_ac false, 7, [])
  | 0xA8 | 0xA9 | 0xAA | 0xAB | 0xAC | 0xAD | 0xAE | 0xAF =>
      let a := (s.A ^^^ reg_read s sss) % 256
      let s := { s with A := a }
      let s := update_szp s a
      some ((s.set_cy false).set_ac false, if sss = 6 then 7 else 4, [])
  | 0xEE =>
      let (s, imm) := s.next8
      let a := (s.A ^^^ imm) % 256
      let s := { s with A := a }
      let s := update_szp s a
      some ((s.set_cy false).set_ac false, 7, [])
  | 0xB8 | 0xB9 | 0xBA | 0xBB | 0xBC | 0xBD | 0xBE | 0xBF =>
      let rval := reg_read s sss
      let s := update_flags_sub s s.A rval 0
      some (s, if sss = 6 then 7 else 4, [])
  | 0xFE =>
      let (s, imm) := s.next8
      let s := update_flags_sub s s.A imm 0
      some (s, 7, [])
  | 0x07 =>
      let msb := (s.A >>> 7) &&& 1
      let s' := { s with A := ((s.A <<< 1) ||| msb) % 256 }
      some (s'.set_cy (decide (msb ≠ 0)), 4, [])
  | 0x0F =>
      let lsb := s.A &&& 1
      let s' := { s with A := ((s.A >>> 1) ||| (lsb <<< 7)) % 256 }
      some (s'.set_cy (decide (lsb ≠ 0)), 4, [])
  | 0x17 =>
      let msb := (s.A >>> 7) &&& 1
      let s' := { s with A := ((s.A <<< 1) ||| (if s.flag_cy then 1 else 0)) % 256 }
      some (s'.set_cy (decide (msb ≠ 0)), 4, [])
  | 0x1F =>
      let lsb := s.A &&& 1
      let s' := { s with A := ((s.A >>> 1) ||| (if s.flag_cy then 0x80 else 0x00)) % 256 }
      some (s'.set_cy (decide (lsb ≠ 0)), 4, [])
  | 0x2F =>
      -- `~A` stored to a uint8 equals 255 - A for a byte A
      some ({ s with A := 255 - s.A % 256 }, 4, [])
  | 0x3F => some (s.set_cy (!s.flag_cy), 4, [])
  | 0x37 => some (s.set_cy true, 4, [])
  | 0xC3 | 0xCB =>
      let (s, addr) := s.next16
      some ({ s with PC := addr }, 10, [])
  | 0xC2 | 0xCA | 0xD2 | 0xDA | 0xE2 | 0xEA | 0xF2 | 0xFA =>
      let (s, addr) := s.next16
      some (if condition s ddd then { s with PC := addr } else s, 10, [])
  | 0xCD | 0xDD | 0xED | 0xFD =>
      let (s, addr) := s.next16
      (s.push16 s.PC).map fun s => ({ s with PC := addr }, 17, [])
  | 0xC4 | 0xCC | 0xD4 | 0xDC | 0xE4 | 0xEC | 0xF4 | 0xFC =>
      let (s, addr) := s.next16
      if condition s ddd then
        (s.push16 s.PC).map fun s => ({ s with PC := addr }, 17, [])
      else some (s, 11, [])
  | 0xC9 | 0xD9 =>
      s.pop16.map fun (s, v) => ({ s with PC := v }, 10, [])
  | 0xC0 | 0xC8 | 0xD0 | 0xD8 | 0xE0 | 0xE8 | 0xF0 | 0xF8 =>
      if condition s ddd then
        s.pop16.map fun (s, v) => ({ s with PC := v }, 11, [])
      else some (s, 5, [])
  | 0xC7 | 0xCF | 0xD7 | 0xDF | 0xE7 | 0xEF | 0xF7 | 0xFF =>
      (s.push16 s.PC).map fun s => ({ s with PC := opcode &&& 0x38 }, 11, [])
  | 0xE9 => some ({ s with PC := s.HL }, 5, [])
  | 0xC5 | 0xD5 | 0xE5 | 0xF5 =>
      (s.push16 (rp_read_psw s rp)).map fun s => (s, 11, [])
  | 0xC1 | 0xD1 | 0xE1 | 0xF1 =>
      s.pop16.map fun (s, v) => (rp_write_psw s rp v, 10, [])
  | 0xE3 =>
      (s.read16 s.SP).bind fun top =>
      (s.write16 s.SP s.HL).map fun s =>
      (s.setHL top, 18, [])
  | 0xF9 => some ({ s with SP := s.HL }, 5, [])
  | 0xDB =>
      let (s, port) := s.next8
      match io.in_handler with
      | some h => some ({ s with A := h port % 256 }, 10, [IOEvent.input port (h port % 256)])
      | none => some ({ s with A := 0xFF }, 10, [])
  | 0xD3 =>
      let (s, port) := s.next8
      if io.out_handler then some (s, 10, [IOEvent.output port (s.A % 256)])
      else some (s, 10, [])
  | 0xFB => some ({ s with inte := true }, 4, [])
  | 0xF3 => some ({ s with inte := false }, 4, [])
  | _ =>
      if 0x40 ≤ opcode ∧ opcode ≤ 0x7F then
        let src := reg_read s sss
        let s := reg_write s ddd src
        some (s, if sss = 6 ∨ ddd = 6 then 7 else 5, [])
      else some (s, 4, [])

-- ── LoadBinary ──

/-- Binary loader (`LoadBinary` in src/cpu8080.cpp).  The host file is
abstracted as `none` (`fopen` failed: unreadable) or `some bytes` (the
stream contents, whose length `ftell` reports; a byte list is never of
negative length, so the `size < 0` arm cannot fire); a thrown exception is
modeled as `none`.  `offset` is a `uint16_t` parameter. -/
def LoadBinary (s : State8080) (file : Option (List Nat)) (offset : Nat) :
    Option State8080 :=
  let offset := offset % 65536
  match file with
  | none => none
  | some bytes =>
      if bytes.length > 0x10000 - offset then none
      else
        some { s with mem := (fun a =>
          if offset ≤ a ∧ a < offset + bytes.length then bytes.getD (a - offset) 0 % 256
          else s.mem a) }

-- ── CP/M BDOS shim, function 9 (src/main.cpp) ──

/-- BDOS function 9 loop of `cpm_bdos` in src/main.cpp: starting at DE the
shim prints bytes until it reads `'$'` (0x24); its `uint16_t` address
counter wraps modulo 2^16.  `fuel` bounds the number of loop iterations so
the search is total in the embedding; `putchar` effects are not modeled.
Returns the address of the terminating `'$'` when it is reached within
`fuel` iterations, `none` otherwise. -/
def bdos9_scan (mem : Nat → Nat) : Nat → Nat → Option Nat
  | 0, _ => none
  | fuel + 1, addr =>
      if mem (addr % 65536) % 256 = 0x24 then some (addr % 65536)
      else bdos9_scan mem fuel (addr % 65536 + 1)

-- ── Specification-side definitions (worded after the spec, §4.2) ──

/-- Specification-side result byte of the sub-class rule (spec §4.2):
`(lhs - rhs - bin) mod 256` computed over the integers. -/
def spec_sub_result (lhs rhs bin : Nat) : Nat :=
  (((lhs : Int) - rhs - bin) % 256).toNat

/-- Specification-side parity flag (spec §4.2): `P = 1` iff the popcount of
the result byte is even. -/
def spec_parity (v : Nat) : Bool :=
  decide ((List.range 8).countP (fun i => v.testBit i) % 2 = 0)

/-- Specification-side DAA correction (spec §4.2): 0x06 when AC is set or
the low nibble exceeds 9, plus 0x60 when CY is set or A exceeds 0x99. -/
def spec_daa_corr (s : State8080) : Nat :=
  (if s.flag_ac = true ∨ 9 < s.A % 16 then 0x06 else 0) +
  (if s.flag_cy = true ∨ 0x99 < s.A then 0x60 else 0)

-- ── Concrete machine states used by the end-to-end scenarios ──

/-- An I/O bus with neither handler installed. -/
def ioNone : IOBus := { in_handler := none, out_handler := false }

/-- Scenario state for `SBB B`: A=0x3E, B=0x3E, F=0x03 (CY=1), opcode 0x98
at PC=0. -/
def sbbState : State8080 :=
  { A := 0x3E, B := 0x3E, F := 0x03, mem := fun a => if a = 0 then 0x98 else 0 }

/-- Scenario state for `DAA`: A=0x9B, F=0x02, opcode 0x27 at PC=0. -/
def daaState : State8080 :=
  { A := 0x9B, F := 0x02, mem := fun a => if a = 0 then 0x27 else 0 }

/-- A halted machine. -/
def haltedState : State8080 := { halted := true }

/-- A two-instruction program reachable from the driver's reset state:
`LXI SP, 0x0105` then `POP PSW`, with the word 0x0028 (low byte has bits 3
and 5 set) at the popped stack slot. -/
def c3State : State8080 :=
  { PC := 0x100, SP := 0xF000,
    mem := fun a =>
      if a = 0x100 then 0x31 else
      if a = 0x101 then 0x05 else
      if a = 0x102 then 0x01 else
      if a = 0x103 then 0xF1 else
      if a = 0x105 then 0x28 else 0 }

/-- Scenario state for `PUSH PSW; POP PSW`: A=0xAB, F=0xD7, SP=0x10. -/
def c6State : State8080 :=
  { A := 0xAB, F := 0xD7, SP := 0x10,
    mem := fun a => if a = 0 then 0xF5 else if a = 1 then 0xF1 else 0 }

/-- A state whose whole memory is the `IN` opcode 0xDB. -/
def c8State : State8080 := { mem := fun _ => 0xDB }

/-- A machine state with all fields at their reset defaults. -/
def zeroState : State8080 := {}

-- ── Arithmetic and bit-level helper lemmas ──

theorem land255_eq_mod (x : Nat) : x &&& 255 = x % 256 :=
  Nat.and_pow_two_sub_one_eq_mod x 8

theorem land15_eq_mod (x : Nat) : x &&& 15 = x % 16 :=
  Nat.and_pow_two_sub_one_eq_mod x 4

theorem shr8_eq_div (x : Nat) : x >>> 8 = x / 256 := by
  rw [Nat.shiftRight_eq_div_pow]

theorem shl8_lor_eq_add (a b : Nat) (hb : b < 256) : (a <<< 8) ||| b = a * 256 + b := by
  rw [Nat.shiftLeft_eq]
  have h8 : b < 2 ^ 8 := by norm_num [hb]
  have h := Nat.mul_add_lt_is_or h8 a
  norm_num at h
  rw [Nat.mul_comm a 256, ← h]

theorem lor_shl8_eq_add (lo hi : Nat) (hlo : lo < 256) :
    lo ||| (hi <<< 8) = hi * 256 + lo := by
  rw [Nat.lor_comm]
  exact shl8_lor_eq_add hi lo hlo

theorem byte_msb : ∀ v, v < 256 →
    decide (v &&& 0x80 ≠ 0) = decide (128 ≤ v) := by decide

theorem parity_eq_spec : ∀ v, v < 256 → parity v = spec_parity v := by decide

theorem lor_fixed_of_bit1 : ∀ f, f < 256 → f &&& 2 = 2 → f ||| 2 = f := by decide

theorem mod65536_mod65536 (x : Nat) : x % 65536 % 65536 = x % 65536 :=
  Nat.mod_mod_of_dvd x dvd_rfl

theorem set_cy_A (s : State8080) (v : Bool) : (s.set_cy v).A = s.A := rfl

theorem set_cy_PC (s : State8080) (v : Bool) : (s.set_cy v).PC = s.PC := rfl

theorem set_cy_F (s : State8080) (v : Bool) :
    (s.set_cy v).F = setFlag s.F FLAG_CY v := rfl

theorem set_ac_A (s : State8080) (v : Bool) : (s.set_ac v).A = s.A := rfl

theorem set_ac_PC (s : State8080) (v : Bool) : (s.set_ac v).PC = s.PC := rfl

theorem set_ac_F (s : State8080) (v : Bool) :
    (s.set_ac v).F = setFlag s.F FLAG_AC v := rfl

theorem update_szp_A (s : State8080) (r : Nat) : (update_szp s r).A = s.A := rfl

theorem update_szp_PC (s : State8080) (r : Nat) : (update_szp s r).PC = s.PC := rfl

theorem update_szp_F (s : State8080) (r : Nat) :
    (update_szp s r).F =
      setFlag (setFlag (setFlag s.F FLAG_S (decide (r &&& 0x80 ≠ 0)))
        FLAG_Z (decide (r = 0))) FLAG_P (parity r) := rfl

/-- Both DAA corrections agree once the branch booleans are read back as
propositions. -/
theorem daa_corr_eq (b1 b2 : Bool) (P1 P2 : Prop) [Decidable P1] [Decidable P2]
    (h1 : b1 = true ↔ P1) (h2 : b2 = true ↔ P2) :
    (if b2 = true then (if b1 = true then 6 else 0) ||| 96
     else (if b1 = true then (6 : Nat) else 0))
    = (if P1 then 6 else 0) + (if P2 then 96 else 0) := by
  rcases Bool.eq_false_or_eq_true b1 with hb | hb <;>
    rcases Bool.eq_false_or_eq_true b2 with hc | hc <;>
      simp [hb, hc, ← h1, ← h2]

/-- With no `'$'` byte anywhere in the 64 KiB space, the BDOS print loop
never exits, whatever iteration bound it is given. -/
theorem bdos9_scan_none (mem : Nat → Nat)
    (hnone : ∀ a, a < 65536 → mem a % 256 ≠ 0x24) :
    ∀ fuel addr, bdos9_scan mem fuel addr = none := by
  intro fuel
  induction fuel with
  | zero => intro addr; rfl
  | succ n ih =>
      intro addr
      have h := hnone (addr % 65536) (Nat.mod_lt _ (by norm_num))
      simp [bdos9_scan, h, ih]

/-- If a `'$'` byte sits k < fuel wrapped steps after the start address,
the BDOS print loop exits within the given fuel. -/
theorem bdos9_scan_finds (mem : Nat → Nat) :
    ∀ fuel addr k, k < fuel → mem ((addr + k) % 65536) % 256 = 0x24 →
      (bdos9_scan mem fuel addr).isSome := by
  intro fuel
  induction fuel with
  | zero => intro addr k hk hd; omega
  | succ n ih =>
      intro addr k hk hdollar
      by_cases h0 : mem (addr % 65536) % 256 = 0x24
      · simp [bdos9_scan, h0]
      · have hk0 : k ≠ 0 := by
          intro h
          rw [h, Nat.add_zero] at hdollar
          exact h0 hdollar
        simp only [bdos9_scan, h0, if_false]
        apply ih (addr % 65536 + 1) (k - 1) (by omega)
        have harith : (addr % 65536 + 1 + (k - 1)) % 65536 = (addr + k) % 65536 := by
          omega
        rw [harith]
        exact hdollar

/-- Flag extraction through the setter chain of `update_flags_sub`
(set S, Z, P, then CY, then AC): each written flag bit reads back as the
boolean that was written, the fixed bits 1, 3 and 5 are untouched, and the
result stays a byte. -/
theorem subChain_flags : ∀ F, F < 256 → ∀ sv zv pv cv av : Bool,
    (decide (setFlag (setFlag (setFlag (setFlag (setFlag F 0x80 sv) 0x40 zv)
        0x04 pv) 0x01 cv) 0x10 av &&& 0x80 ≠ 0) = sv) ∧
    (decide (setFlag (setFlag (setFlag (setFlag (setFlag F 0x80 sv) 0x40 zv)
        0x04 pv) 0x01 cv) 0x10 av &&& 0x40 ≠ 0) = zv) ∧
    (decide (setFlag (setFlag (setFlag (setFlag (setFlag F 0x80 sv) 0x40 zv)
        0x04 pv) 0x01 cv) 0x10 av &&& 0x04 ≠ 0) = pv) ∧
    (decide (setFlag (setFlag (setFlag (setFlag (setFlag F 0x80 sv) 0x40 zv)
        0x04 pv) 0x01 cv) 0x10 av &&& 0x01 ≠ 0) = cv) ∧
    (decide (setFlag (setFlag (setFlag (setFlag (setFlag F 0x80 sv) 0x40 zv)
        0x04 pv) 0x01 cv) 0x10 av &&& 0x10 ≠ 0) = av) ∧
    setFlag (setFlag (setFlag (setFlag (setFlag F 0x80 sv) 0x40 zv)
        0x04 pv) 0x01 cv) 0x10 av &&& 0x02 = F &&& 0x02 ∧
    setFlag (setFlag (setFlag (setFlag (setFlag F 0x80 sv) 0x40 zv)
        0x04 pv) 0x01 cv) 0x10 av &&& 0x28 = F &&& 0x28 ∧
    setFlag (setFlag (setFlag (setFlag (setFlag F 0x80 sv) 0x40 zv)
        0x04 pv) 0x01 cv) 0x10 av < 256 := by decide

/-- Flag extraction through the setter chain of the `DAA` case
(set AC, then S, Z, P, then CY). -/
theorem daaChain_flags : ∀ F, F < 256 → ∀ av sv zv pv cv : Bool,
    (decide (setFlag (setFlag (setFlag (setFlag (setFlag F 0x10 av) 0x80 sv)
        0x40 zv) 0x04 pv) 0x01 cv &&& 0x80 ≠ 0) = sv) ∧
    (decide (setFlag (setFlag (setFlag (setFlag (setFlag F 0x10 av) 0x80 sv)
        0x40 zv) 0x04 pv) 0x01 cv &&& 0x40 ≠ 0) = zv) ∧
    (decide (setFlag (setFlag (setFlag (setFlag (setFlag F 0x10 av) 0x80 sv)
        0x40 zv) 0x04 pv) 0x01 cv &&& 0x04 ≠ 0) = pv) ∧
    (decide (setFlag (setFlag (setFlag (setFlag (setFlag F 0x10 av) 0x80 sv)
        0x40 zv) 0x04 pv) 0x01 cv &&& 0x01 ≠ 0) = cv) ∧
    (decide (setFlag (setFlag (setFlag (setFlag (setFlag F 0x10 av) 0x80 sv)
        0x40 zv) 0x04 pv) 0x01 cv &&& 0x10 ≠ 0) = av) ∧
    setFlag (setFlag (setFlag (setFlag (setFlag F 0x10 av) 0x80 sv)
        0x40 zv) 0x04 pv) 0x01 cv &&& 0x02 = F &&& 0x02 ∧
    setFlag (setFlag (setFlag (setFlag (setFlag F 0x10 av) 0x80 sv)
        0x40 zv) 0x04 pv) 0x01 cv < 256 := by decide

-- ── Claim theorems ──

/-- Claim C7: for every state with `halted = true` and every I/O bus, one
step returns exactly 4 cycles without decoding: the state is returned
unchanged and no I/O callback is invoked. -/
theorem C7_halted_step (s : State8080) (io : IOBus) (h : s.halted = true) :
    Step8080 s io = some (s, 4, []) := by
  simp [Step8080, h]

theorem C7_halted_step_witness :
    Step8080 haltedState ioNone = some (haltedState, 4, []) :=
  C7_halted_step haltedState ioNone rfl

/-- Claim C4 (code bug): the 16-bit memory helpers do not wrap the second
index modulo 2^16; at address 0xFFFF they index the 65536-byte array out of
bounds (modeled as `none`), so a RET/POP with SP = 0xFFFF or a PUSH with
SP = 0x0001 performs an out-of-range access instead of placing the high
byte at address 0x0000. -/
theorem C4_oob_access (s : State8080) (v : Nat) :
    s.read16 0xFFFF = none ∧ s.write16 0xFFFF v = none ∧
    ({ s with SP := 0xFFFF } : State8080).pop16 = none ∧
    ({ s with SP := 1 } : State8080).push16 v = none := by
  refine ⟨rfl, rfl, rfl, ?_⟩
  unfold State8080.push16 State8080.write16
  norm_num

/-- Claim C3 (code bug): a reachable two-instruction program
(`LXI SP, 0x0105; POP PSW` with stack word 0x0028) leaves F = 0x2A, whose
bits 3 and 5 are set: `setPSW` only ORs in the fixed bit 1 and does not
clear bits 3 and 5, so `F & 0x28 == 0` is violated after POP PSW. -/
theorem C3_poppsw_keeps_bits35 :
    ((Step8080 c3State ioNone).bind fun r => Step8080 r.1 ioNone).map
        (fun r => r.1.F) = some 0x2A ∧ (0x2A : Nat) &&& 0x28 ≠ 0 :=
  ⟨by decide, by decide⟩

/-- Claim C2 (as stated, refuted): the auxiliary-carry comparison in
`update_flags_sub` is an `int` comparison (the `uint8_t` operands are
promoted), so it can be true: with lhs = 0, rhs = 1, borrow_in = 0 the
sub-class update sets AC rather than leaving it cleared. -/
theorem C2_counterexample :
    (update_flags_sub { mem := fun _ => 0 } 0 1 0).flag_ac = true := by decide

/-- Claim C2 (amended): in `update_flags_sub` the operands of the
auxiliary-carry comparison are promoted to signed `int`, so the comparison
is true exactly when the low-nibble difference is negative: AC is set iff
`lhs % 16 < rhs % 16 + borrow_in`. -/
theorem C2_amended_ac (s : State8080) (lhs rhs bin : Nat) (hF : s.F < 256)
    (hl : lhs < 256) (hr : rhs < 256) (hb : bin ≤ 1) :
    (update_flags_sub s lhs rhs bin).flag_ac
      = decide (lhs % 16 < rhs % 16 + bin) := by
  simp only [update_flags_sub, update_szp, State8080.set_s, State8080.set_z,
    State8080.set_p, State8080.set_cy, State8080.set_ac, State8080.flag_ac,
    FLAG_S, FLAG_Z, FLAG_P, FLAG_CY, FLAG_AC]
  rw [(subChain_flags s.F hF _ _ _ _ _).2.2.2.2.1]
  rw [land15_eq_mod, land15_eq_mod]
  simp only [decide_eq_decide]
  omega

theorem C2_amended_ac_witness :
    (update_flags_sub zeroState 0 1 0).flag_ac = decide (0 % 16 < 1 % 16 + 0) :=
  C2_amended_ac zeroState 0 1 0 (by decide) (by decide) (by decide) (by decide)

/-- Claim C1: for all lhs, rhs in [0,255] and borrow_in in {0,1}, the
sub-class flag update computes S/Z/P from (lhs - rhs - borrow_in) mod 256,
sets CY iff lhs < rhs + borrow_in, and sets AC iff the low-nibble
difference (over the integers) is negative; and `SBB B` (0x98) from
A=0x3E, B=0x3E, CY=1 yields A=0xFF, F=0x97, 4 cycles. -/
theorem C1_sub_flags (s : State8080) (lhs rhs bin : Nat) (hF : s.F < 256)
    (hl : lhs < 256) (hr : rhs < 256) (hb : bin ≤ 1) :
    (update_flags_sub s lhs rhs bin).flag_s
        = decide (128 ≤ spec_sub_result lhs rhs bin) ∧
    (update_flags_sub s lhs rhs bin).flag_z
        = decide (spec_sub_result lhs rhs bin = 0) ∧
    (update_flags_sub s lhs rhs bin).flag_p
        = spec_parity (spec_sub_result lhs rhs bin) ∧
    (update_flags_sub s lhs rhs bin).flag_cy = decide (lhs < rhs + bin) ∧
    (update_flags_sub s lhs rhs bin).flag_ac
        = decide (lhs % 16 < rhs % 16 + bin) ∧
    (Step8080 sbbState ioNone).map (fun r => (r.1.A, r.1.F, r.2.1))
        = some (0xFF, 0x97, 4) := by
  have hres : (lhs + 65536 - rhs - bin) % 65536 % 256 < 256 :=
    Nat.mod_lt _ (by norm_num)
  refine ⟨?_, ?_, ?_, ?_, ?_, by decide⟩ <;>
    simp only [update_flags_sub, update_szp, State8080.set_s, State8080.set_z,
      State8080.set_p, State8080.set_cy, State8080.set_ac, State8080.flag_s,
      State8080.flag_z, State8080.flag_p, State8080.flag_cy, State8080.flag_ac,
      FLAG_S, FLAG_Z, FLAG_P, FLAG_CY, FLAG_AC]
  · rw [(subChain_flags s.F hF _ _ _ _ _).1, byte_msb _ hres]
    simp only [spec_sub_result, decide_eq_decide]
    omega
  · rw [(subChain_flags s.F hF _ _ _ _ _).2.1]
    simp only [spec_sub_result, decide_eq_decide]
    omega
  · rw [(subChain_flags s.F hF _ _ _ _ _).2.2.1]
    have h2 : (lhs + 65536 - rhs - bin) % 65536 % 256
        = spec_sub_result lhs rhs bin := by
      simp only [spec_sub_result]
      omega
    rw [h2]
    exact parity_eq_spec _ (h2 ▸ hres)
  · rw [(subChain_flags s.F hF _ _ _ _ _).2.2.2.1]
    simp only [decide_eq_decide]
    omega
  · rw [(subChain_flags s.F hF _ _ _ _ _).2.2.2.2.1]
    rw [land15_eq_mod, land15_eq_mod]
    simp only [decide_eq_decide]
    omega

theorem C1_sub_flags_witness :
    (update_flags_sub zeroState 62 62 1).flag_s
        = decide (128 ≤ spec_sub_result 62 62 1) ∧
    (update_flags_sub zeroState 62 62 1).flag_z
        = decide (spec_sub_result 62 62 1 = 0) ∧
    (update_flags_sub zeroState 62 62 1).flag_p
        = spec_parity (spec_sub_result 62 62 1) ∧
    (update_flags_sub zeroState 62 62 1).flag_cy = decide (62 < 62 + 1) ∧
    (update_flags_sub zeroState 62 62 1).flag_ac
        = decide (62 % 16 < 62 % 16 + 1) ∧
    (Step8080 sbbState ioNone).map (fun r => (r.1.A, r.1.F, r.2.1))
        = some (0xFF, 0x97, 4) :=
  C1_sub_flags zeroState 62 62 1 (by decide) (by decide) (by decide) (by decide)

set_option maxHeartbeats 1000000 in
/-- Claim C5: for every initial A, CY, AC (and any state about to execute
DAA), the step follows §4.2: correction 0x06 iff AC or low nibble > 9,
correction 0x60 and CY := 1 iff CY or A > 0x99 (CY otherwise keeps its old
value, which that condition forces to 0), AC iff the low-nibble sum of A
and the correction carries out of bit 3, A := A + correction mod 256 with
S/Z/P from the new A, 4 cycles; and from A=0x9B, F=0x02 DAA yields A=0x01,
F=0x13. -/
theorem C5_daa (s : State8080) (io : IOBus)
    (hhalt : s.halted = false) (hPC : s.PC < 65536) (hop : s.mem s.PC = 0x27)
    (hA : s.A < 256) (hF : s.F < 256) :
    (∃ s', Step8080 s io = some (s', 4, []) ∧
      s'.A = (s.A + spec_daa_corr s) % 256 ∧
      s'.flag_cy = (s.flag_cy || decide (0x99 < s.A)) ∧
      s'.flag_ac = decide (15 < s.A % 16 + spec_daa_corr s % 16) ∧
      s'.flag_s = decide (128 ≤ s'.A) ∧
      s'.flag_z = decide (s'.A = 0) ∧
      s'.flag_p = spec_parity s'.A ∧
      s'.PC = (s.PC + 1) % 65536) ∧
    (Step8080 daaState ioNone).map (fun r => (r.1.A, r.1.F, r.2.1))
      = some (0x01, 0x13, 4) := by
  refine ⟨?_, by decide⟩
  have hfetch : s.mem (s.PC % 65536) % 256 = 0x27 := by
    rw [Nat.mod_eq_of_lt hPC, hop]
  simp only [Step8080, State8080.next8, hhalt, hfetch, Bool.false_eq_true, if_false,
    State8080.flag_ac, State8080.flag_cy, State8080.flag_s, State8080.flag_z,
    State8080.flag_p, set_ac_F, set_ac_A, set_ac_PC, set_cy_F, set_cy_A, set_cy_PC,
    update_szp_F, update_szp_A, update_szp_PC]
  have h1 : (decide (s.F &&& 16 ≠ 0) || decide (s.A &&& 15 > 9)) = true
      ↔ (decide (s.F &&& 16 ≠ 0) = true ∨ 9 < s.A % 16) := by
    simp [land15_eq_mod]
  have h2 : (decide (s.F &&& 1 ≠ 0) || decide (s.A > 153)) = true
      ↔ (decide (s.F &&& 1 ≠ 0) = true ∨ 153 < s.A) := by
    simp
  refine ⟨_, rfl, ?_, ?_, ?_, ?_, ?_, ?_, ?_⟩ <;>
    simp only [set_ac_F, set_ac_A, set_ac_PC, set_cy_F, set_cy_A, set_cy_PC,
      update_szp_F, update_szp_A, update_szp_PC, spec_daa_corr,
      State8080.flag_ac, State8080.flag_cy,
      FLAG_CY, FLAG_AC, FLAG_S, FLAG_Z, FLAG_P]
  · rw [daa_corr_eq _ _ _ _ h1 h2]
  · rw [(daaChain_flags s.F hF _ _ _ _ _).2.2.2.1]
  · rw [(daaChain_flags s.F hF _ _ _ _ _).2.2.2.2.1,
      daa_corr_eq _ _ _ _ h1 h2, land15_eq_mod, land15_eq_mod]
  · rw [(daaChain_flags s.F hF _ _ _ _ _).1,
      byte_msb _ (Nat.mod_lt _ (by norm_num))]
  · rw [(daaChain_flags s.F hF _ _ _ _ _).2.1]
  · rw [(daaChain_flags s.F hF _ _ _ _ _).2.2.1]
    exact parity_eq_spec _ (Nat.mod_lt _ (by norm_num))

theorem C5_daa_witness :
    (∃ s', Step8080 daaState ioNone = some (s', 4, []) ∧
      s'.A = (daaState.A + spec_daa_corr daaState) % 256 ∧
      s'.flag_cy = (daaState.flag_cy || decide (0x99 < daaState.A)) ∧
      s'.flag_ac = decide (15 < daaState.A % 16 + spec_daa_corr daaState % 16) ∧
      s'.flag_s = decide (128 ≤ s'.A) ∧
      s'.flag_z = decide (s'.A = 0) ∧
      s'.flag_p = spec_parity s'.A ∧
      s'.PC = (daaState.PC + 1) % 65536) ∧
    (Step8080 daaState ioNone).map (fun r => (r.1.A, r.1.F, r.2.1))
      = some (0x01, 0x13, 4) :=
  C5_daa daaState ioNone rfl (by decide) (by decide) (by decide) (by decide)

set_option maxHeartbeats 1000000 in
/-- Claim C6: from any state satisfying the fixed-flag invariant, executing
PUSH PSW then POP PSW (stack and code regions disjoint, stack not at the
out-of-bounds corner SP = 1) restores A and F exactly, returns SP to its
original value, and after the push the two bytes below the original SP hold
F (lower address) and A (higher address). -/
theorem C6_push_pop_psw (s : State8080) (io : IOBus)
    (hhalt : s.halted = false) (hPC : s.PC < 65536) (hSP : s.SP < 65536)
    (hSP1 : s.SP ≠ 1) (hA : s.A < 256) (hF : s.F < 256)
    (hfix1 : s.F &&& 0x02 = 0x02) (hfix2 : s.F &&& 0x28 = 0)
    (hop1 : s.mem s.PC = 0xF5) (hop2 : s.mem ((s.PC + 1) % 65536) = 0xF1)
    (hc1 : (s.SP + 65534) % 65536 ≠ (s.PC + 1) % 65536)
    (hc2 : (s.SP + 65535) % 65536 ≠ (s.PC + 1) % 65536) :
    ∃ s1 s2,
      Step8080 s io = some (s1, 11, []) ∧
      Step8080 s1 io = some (s2, 10, []) ∧
      s2.A = s.A ∧ s2.F = s.F ∧ s2.SP = s.SP ∧
      s1.mem ((s.SP + 65534) % 65536) = s.F ∧
      s1.mem ((s.SP + 65535) % 65536) = s.A := by
  have hfetch1 : s.mem (s.PC % 65536) % 256 = 0xF5 := by
    rw [Nat.mod_eq_of_lt hPC, hop1]
  have h245 : ((245 >>> 4 : Nat) &&& 3) &&& 3 = 3 := rfl
  have h241 : ((241 >>> 4 : Nat) &&& 3) &&& 3 = 3 := rfl
  have hwok : (s.SP + 65534) % 65536 + 1 ≤ 65535 := by omega
  have ha1 : (s.SP + 65534) % 65536 + 1 = (s.SP + 65535) % 65536 := by omega
  have hpack : ((s.A <<< 8) ||| s.F) % 65536 = s.A * 256 + s.F := by
    rw [shl8_lor_eq_add _ _ hF]
    exact Nat.mod_eq_of_lt (by omega)
  have hpack3 : (s.A * 256 + s.F) % 65536 = s.A * 256 + s.F :=
    Nat.mod_eq_of_lt (by omega)
  have hv1 : (s.A * 256 + s.F) &&& 255 = s.F := by
    rw [land255_eq_mod]
    omega
  have hv2 : (s.A * 256 + s.F) >>> 8 = s.A := by
    rw [shr8_eq_div]
    omega
  have step1 : ∃ s1, Step8080 s io = some (s1, 11, []) ∧
      s1.A = s.A ∧ s1.F = s.F ∧ s1.halted = false ∧
      s1.PC = (s.PC + 1) % 65536 ∧ s1.SP = (s.SP + 65534) % 65536 ∧
      s1.mem = updMem (updMem s.mem ((s.SP + 65534) % 65536) s.F)
        ((s.SP + 65534) % 65536 + 1) s.A := by
    simp only [Step8080, State8080.next8, hhalt, Bool.false_eq_true, if_false,
      hfetch1, rp_read_psw, State8080.PSW, State8080.push16, State8080.write16,
      mod65536_mod65536, h245, hpack, hpack3, hv1, hv2, hwok, if_true,
      Option.map_some']
    exact ⟨_, rfl, rfl, rfl, rfl, rfl, rfl, rfl⟩
  obtain ⟨s1, hstep1, hA1, hF1, hh1, hPC1, hSP1x, hmem1⟩ := step1
  have hmemlow : s1.mem ((s.SP + 65534) % 65536) = s.F := by
    rw [hmem1]
    simp only [updMem]
    rw [if_neg (by omega)]
    simp
  have hmemhigh : s1.mem ((s.SP + 65535) % 65536) = s.A := by
    rw [hmem1, ← ha1]
    simp [updMem]
  have hfetch2 : s1.mem (s1.PC % 65536) % 256 = 0xF1 := by
    rw [hPC1, mod65536_mod65536, hmem1]
    simp only [updMem]
    rw [if_neg (by omega), if_neg (by omega), hop2]
  have hmlow2 : s1.mem ((s.SP + 65534) % 65536) % 256 = s.F := by
    rw [hmemlow]
    exact Nat.mod_eq_of_lt hF
  have hmhigh2 : s1.mem ((s.SP + 65534) % 65536 + 1) % 256 = s.A := by
    rw [ha1, hmemhigh]
    exact Nat.mod_eq_of_lt hA
  have hpack2 : (s.F ||| (s.A <<< 8)) % 65536 = s.A * 256 + s.F := by
    rw [lor_shl8_eq_add _ _ hF]
    exact Nat.mod_eq_of_lt (by omega)
  have hFfix : s.F ||| 2 = s.F := lor_fixed_of_bit1 s.F hF hfix1
  have hSP2 : ((s.SP + 65534) % 65536 + 2) % 65536 = s.SP := by omega
  have step2 : ∃ s2, Step8080 s1 io = some (s2, 10, []) ∧
      s2.A = s.A ∧ s2.F = s.F ∧ s2.SP = s.SP := by
    simp only [Step8080, State8080.next8, hh1, Bool.false_eq_true, if_false,
      hfetch2, State8080.pop16, State8080.read16, State8080.setPSW,
      rp_write_psw, h241, mod65536_mod65536, hSP1x, hwok, if_true,
      hmlow2, hmhigh2, hpack2, hpack3, hv1, hv2, FLAG_FIXED, hFfix, hSP2,
      Option.map_some']
    exact ⟨_, rfl, rfl, rfl, rfl⟩
  obtain ⟨s2, hstep2, hA2, hF2, hSP2x⟩ := step2
  exact ⟨s1, s2, hstep1, hstep2, hA2, hF2, hSP2x, hmemlow, hmemhigh⟩

theorem C6_push_pop_psw_witness :
    ∃ s1 s2,
      Step8080 c6State ioNone = some (s1, 11, []) ∧
      Step8080 s1 ioNone = some (s2, 10, []) ∧
      s2.A = c6State.A ∧ s2.F = c6State.F ∧ s2.SP = c6State.SP ∧
      s1.mem ((c6State.SP + 65534) % 65536) = c6State.F ∧
      s1.mem ((c6State.SP + 65535) % 65536) = c6State.A :=
  C6_push_pop_psw c6State ioNone rfl (by decide) (by decide) (by decide)
    (by decide) (by decide) (by decide) (by decide) (by decide) (by decide)
    (by decide) (by decide)

/-- Claim C8: `IN p` with no input handler sets A to 0xFF (open bus pulled
high), advances PC by 2, costs 10 cycles, and changes nothing else; `OUT p`
with no output handler is a sink: PC advances by 2, 10 cycles, no other
change and no handler invocation. -/
theorem C8_io_defaults (s : State8080) (io : IOBus)
    (hhalt : s.halted = false) (hPC : s.PC < 65536) :
    (s.mem s.PC = 0xDB → io.in_handler = none →
      Step8080 s io = some ({ s with A := 0xFF, PC := (s.PC + 2) % 65536 }, 10, [])) ∧
    (s.mem s.PC = 0xD3 → io.out_handler = false →
      Step8080 s io = some ({ s with PC := (s.PC + 2) % 65536 }, 10, [])) := by
  constructor
  · intro hop hin
    have hfetch : s.mem (s.PC % 65536) % 256 = 0xDB := by
      rw [Nat.mod_eq_of_lt hPC, hop]
    simp only [Step8080, State8080.next8, hhalt, hfetch, hin, Bool.false_eq_true,
      if_false, Option.some.injEq, Prod.mk.injEq, State8080.mk.injEq]
    norm_num
  · intro hop hout
    have hfetch : s.mem (s.PC % 65536) % 256 = 0xD3 := by
      rw [Nat.mod_eq_of_lt hPC, hop]
    simp only [Step8080, State8080.next8, hhalt, hfetch, hout, Bool.false_eq_true,
      if_false, Option.some.injEq, Prod.mk.injEq, State8080.mk.injEq]
    norm_num

theorem C8_io_defaults_witness :
    (c8State.mem c8State.PC = 0xDB → ioNone.in_handler = none →
      Step8080 c8State ioNone =
        some ({ c8State with A := 0xFF, PC := (c8State.PC + 2) % 65536 }, 10, [])) ∧
    (c8State.mem c8State.PC = 0xD3 → ioNone.out_handler = false →
      Step8080 c8State ioNone =
        some ({ c8State with PC := (c8State.PC + 2) % 65536 }, 10, [])) :=
  C8_io_defaults c8State ioNone rfl (by decide)

/-- Claim C9: the loader fails exactly when the file is unreadable or the
image is longer than 0x10000 - offset; on success exactly the bytes in
[offset, offset + length) are replaced by the stream's bytes and no other
memory or state field changes (on failure the state is returned untouched
by construction). -/
theorem C9_loader (s : State8080) (file : Option (List Nat)) (offset : Nat)
    (hoff : offset < 65536) :
    (LoadBinary s file offset = none ↔
      file = none ∨ ∃ bytes, file = some bytes ∧ 65536 - offset < bytes.length) ∧
    (∀ bytes s', file = some bytes → LoadBinary s file offset = some s' →
      (∀ a, a < offset ∨ offset + bytes.length ≤ a → s'.mem a = s.mem a) ∧
      (∀ i, i < bytes.length → s'.mem (offset + i) = bytes.getD i 0 % 256) ∧
      s'.A = s.A ∧ s'.B = s.B ∧ s'.C = s.C ∧ s'.D = s.D ∧ s'.E = s.E ∧
      s'.H = s.H ∧ s'.L = s.L ∧ s'.F = s.F ∧ s'.PC = s.PC ∧ s'.SP = s.SP ∧
      s'.inte = s.inte ∧ s'.halted = s.halted) := by
  have hmod : offset % 65536 = offset := Nat.mod_eq_of_lt hoff
  constructor
  · cases file with
    | none => simp [LoadBinary]
    | some bytes =>
        by_cases h : bytes.length > 65536 - offset
        · simp [LoadBinary, hmod, h]
        · simp [LoadBinary, hmod, h]
  · intro bytes s' hfile heq
    subst hfile
    by_cases h : bytes.length > 65536 - offset
    · simp [LoadBinary, hmod, h] at heq
    · simp only [LoadBinary, hmod, gt_iff_lt, h, if_false, if_neg h,
        Option.some.injEq] at heq
      subst heq
      refine ⟨?_, ?_, rfl, rfl, rfl, rfl, rfl, rfl, rfl, rfl, rfl, rfl, rfl, rfl⟩
      · intro a ha
        simp only []
        rw [if_neg]
        omega
      · intro i hi
        simp only []
        rw [if_pos (by omega)]
        have harith : offset + i - offset = i := by omega
        rw [harith]

theorem C9_loader_witness :
    (LoadBinary zeroState (some [1, 2, 3]) 0x100 = none ↔
      some [1, 2, 3] = none ∨
        ∃ bytes, some [1, 2, 3] = some bytes ∧ 65536 - 0x100 < bytes.length) ∧
    (∀ bytes s', some [1, 2, 3] = some bytes →
      LoadBinary zeroState (some [1, 2, 3]) 0x100 = some s' →
      (∀ a, a < 0x100 ∨ 0x100 + bytes.length ≤ a → s'.mem a = zeroState.mem a) ∧
      (∀ i, i < bytes.length → s'.mem (0x100 + i) = bytes.getD i 0 % 256) ∧
      s'.A = zeroState.A ∧ s'.B = zeroState.B ∧ s'.C = zeroState.C ∧
      s'.D = zeroState.D ∧ s'.E = zeroState.E ∧ s'.H = zeroState.H ∧
      s'.L = zeroState.L ∧ s'.F = zeroState.F ∧ s'.PC = zeroState.PC ∧
      s'.SP = zeroState.SP ∧ s'.inte = zeroState.inte ∧
      s'.halted = zeroState.halted) :=
  C9_loader zeroState (some [1, 2, 3]) 0x100 (by decide)

/-- Claim C10: the BDOS function-9 print loop terminates from any start
address iff some byte of the 65536-byte memory equals 0x24: with such a
byte present it halts within 65536 iterations (the address counter wraps
modulo 2^16 and visits every address), and with none present it never
terminates, whatever iteration bound it is given. -/
theorem C10_bdos9_termination (mem : Nat → Nat) (start : Nat)
    (hs : start < 65536) :
    ((bdos9_scan mem 65536 start).isSome ↔ ∃ a, a < 65536 ∧ mem a % 256 = 0x24) ∧
    (∀ fuel, (∀ a, a < 65536 → mem a % 256 ≠ 0x24) →
      bdos9_scan mem fuel start = none) := by
  constructor
  · constructor
    · intro hsome
      by_contra hno
      push_neg at hno
      rw [bdos9_scan_none mem hno 65536 start] at hsome
      simp at hsome
    · rintro ⟨a, ha, hdollar⟩
      apply bdos9_scan_finds mem 65536 start ((a + 65536 - start) % 65536) (by omega)
      have harith : (start + (a + 65536 - start) % 65536) % 65536 = a := by omega
      rw [harith]
      exact hdollar
  · intro fuel hnone
    exact bdos9_scan_none mem hnone fuel start

theorem C10_bdos9_termination_witness :
    ((bdos9_scan (fun _ => 0x24) 65536 0).isSome ↔
      ∃ a, a < 65536 ∧ (fun _ => (0x24 : Nat)) a % 256 = 0x24) ∧
    (∀ fuel, (∀ a, a < 65536 → (fun _ => (0x24 : Nat)) a % 256 ≠ 0x24) →
      bdos9_scan (fun _ => 0x24) fuel 0 = none) :=
  C10_bdos9_termination (fun _ => 0x24) 0 (by decide)
